import Mathlib

/-!
Shallow embedding of the calendar-api Flask application (src/app.py).

The application is a single-file HTTP facade over a remote calendar
collaborator.  We embed:

  * the credential store `get_calendar_service` (app.py lines 33-81) as a
    pure function over an explicit environment `CredEnv` that records the
    configuration surface (environment variables, local files) and the
    outcomes of the external OAuth collaborator calls;
  * each request handler (`get_events`, `create_event`, `update_event`,
    `delete_event`, `search_events`, `health_check`) as a pure function
    from an environment and the parsed request to a `Response` paired
    with the trace of collaborator calls it performed;
  * the `require_api_key` decorator and route dispatch.

Python exceptions become `Except String`; Python dict lookups with
defaults become `Option.getD`; truthiness of strings is made explicit.
-/

namespace CalendarApi

/-- Python truthiness of an optional string environment variable:
`None` and the empty string are falsy. -/
def truthy : Option String → Bool
  | some s => s ≠ ""
  | none => false

/-- A single-quote character as a string (used in Python f-strings of the
handlers, e.g. the delete confirmation message). -/
def sq : String := String.singleton (Char.ofNat 39)

/-! ## Provider-native event shape

The Google event dicts the code reads: `id` is accessed unconditionally
(`event` dict id key), `summary`/`description`/`location`/`htmlLink` via `.get`,
and `start`/`end` are nested objects with optional `dateTime`/`date`. -/

/-- The nested `start`/`end` object of a provider-native event. -/
structure ProviderTime where
  dateTime : Option String
  date : Option String
  timeZone : Option String
  deriving DecidableEq, Repr

/-- A provider-native event as returned by the collaborator list/get calls. -/
structure ProviderEvent where
  id : String
  summary : Option String
  description : Option String
  location : Option String
  start : ProviderTime
  «end» : ProviderTime
  htmlLink : Option String
  deriving DecidableEq, Repr

/-- The event dict built by `create_event` (app.py lines 146-162): the three
string fields are always set, `start`/`end` only when a date is supplied. -/
structure EventBody where
  summary : String
  description : String
  location : String
  start : Option ProviderTime
  «end» : Option ProviderTime
  deriving DecidableEq, Repr

/-- What the collaborator returns from insert/update: the code reads
`created_event[id]` and `created_event.get(htmlLink)`. -/
structure CreatedRef where
  id : String
  htmlLink : Option String
  deriving DecidableEq, Repr

/-- The simplified event shape produced by the formatting loops of
`get_events` (lines 119-126) and `search_events` (lines 266-273). -/
structure FormattedEvent where
  id : String
  title : String
  start : Option String
  «end» : Option String
  description : String
  location : String
  deriving DecidableEq, Repr

/-- The formatting loop body shared by `get_events` and `search_events`:
`dateTime` preferred over `date`, `summary` defaulted to "No title". -/
def formatEvent (event : ProviderEvent) : FormattedEvent :=
  { id := event.id
    title := event.summary.getD "No title"
    start := event.start.dateTime.orElse fun _ => event.start.date
    «end» := event.«end».dateTime.orElse fun _ => event.«end».date
    description := event.description.getD ""
    location := event.location.getD "" }

/-! ## Credential store (`get_calendar_service`, app.py lines 33-81) -/

/-- The observable state of a Google credential object: its truthiness is
always true once constructed, so only `valid`, `expired` and the
truthiness of `refresh_token` drive the control flow. -/
structure Creds where
  valid : Bool
  expired : Bool
  refresh_token : Bool
  deriving DecidableEq, Repr

/-- Configuration and collaborator-outcome environment for
`get_calendar_service`.  Functions record what the external OAuth
collaborator would answer; `Except.error` models a raised exception. -/
structure CredEnv where
  /-- the `GOOGLE_TOKEN` environment variable -/
  GOOGLE_TOKEN : Option String
  /-- the `GOOGLE_CREDENTIALS` environment variable -/
  GOOGLE_CREDENTIALS : Option String
  /-- outcome of `json.loads` + `Credentials.from_authorized_user_info`
  on the inline token; `none` models the caught parse exception -/
  parseToken : String → Option Creds
  /-- contents of `token.pickle` when the file exists, else `none` -/
  tokenPickle : Option Creds
  /-- whether `credentials.json` exists -/
  credentialsJsonExists : Bool
  /-- outcome of `creds.refresh(Request())` -/
  refreshResult : Creds → Except String Creds
  /-- outcome of `flow.run_local_server(port=0)` -/
  runLocalServerResult : Except String Creds

/-- Result of a successful `get_calendar_service`: the credential backing
the returned service, and what (if anything) was written to
`token.pickle`. -/
structure AuthResult where
  creds : Creds
  savedToken : Option Creds
  deriving DecidableEq, Repr

/-- Lines 38-48: load a credential from the inline `GOOGLE_TOKEN` value
when that is truthy (a parse failure is caught, logged and leaves the
credential unset), else from `token.pickle` when that file exists.
Note the `elif`: the file is consulted only when the inline value is
falsy, not when it fails to parse. -/
def loadCreds (env : CredEnv) : Option Creds :=
  match env.GOOGLE_TOKEN with
  | some tok => if tok ≠ "" then env.parseToken tok else env.tokenPickle
  | none => env.tokenPickle

/-- Lines 60-79: select an OAuth flow source and run the interactive
authorization; the credential is pickled to `token.pickle` only on the
`credentials.json` path. -/
def authFlow (env : CredEnv) : Except String AuthResult :=
  if truthy env.GOOGLE_CREDENTIALS ∨ env.credentialsJsonExists then
    if env.credentialsJsonExists then
      match env.runLocalServerResult with
      | .error e => .error e
      | .ok c => .ok ⟨c, some c⟩
    else
      .error "Cannot run OAuth flow in production without local credentials.json"
  else
    .error "No credentials found. Set GOOGLE_CREDENTIALS environment variable or provide credentials.json"

/-- Lines 51-79: given the loaded credential (if any), either use it as
is (valid), refresh it (expired with refresh token — note: no file write
on this path, the inline branch is an explicit `pass`), or fall to the
interactive authorization flow. -/
def afterLoad (env : CredEnv) : Option Creds → Except String AuthResult
  | some c =>
    if c.valid then .ok ⟨c, none⟩
    else if c.expired ∧ c.refresh_token then
      match env.refreshResult c with
      | .error e => .error e
      | .ok c2 => .ok ⟨c2, none⟩
    else authFlow env
  | none => authFlow env

/-- `get_calendar_service` (lines 33-81): load a credential from the
inline value or the token file, then validate/refresh/acquire. -/
def get_calendar_service (env : CredEnv) : Except String AuthResult :=
  afterLoad env (loadCreds env)

/-! ## Dates

`get_events` parses its `date` argument with
`datetime.strptime(date_str, %Y-%m-%d)`, adds `timedelta(days=days)` and
formats both endpoints with `isoformat()` (midnight, so the result is
`YYYY-MM-DDT00:00:00`).  Calendar-day arithmetic is embedded via the
standard civil-from-days / days-from-civil conversions. -/

/-- A calendar date (the date part of a Python `datetime`). -/
structure Date where
  year : Int
  month : Int
  day : Int
  deriving DecidableEq, Repr

/-- Gregorian leap-year rule (as used by Python `datetime` validation). -/
def isLeap (y : Int) : Bool :=
  y % 4 == 0 && (y % 100 != 0 || y % 400 == 0)

/-- Length of a month, for `strptime` validation. -/
def daysInMonth (y m : Int) : Int :=
  if m = 2 then (if isLeap y then 29 else 28)
  else if m = 4 ∨ m = 6 ∨ m = 9 ∨ m = 11 then 30
  else 31

/-- Day count since the epoch 1970-01-01 of a civil date
(Hinnant's days-from-civil, floor division throughout). -/
def daysFromCivil (y m d : Int) : Int :=
  let y := if m ≤ 2 then y - 1 else y
  let era := Int.fdiv y 400
  let yoe := y - era * 400
  let mp := Int.emod (m + 9) 12
  let doy := Int.fdiv (153 * mp + 2) 5 + d - 1
  let doe := yoe * 365 + Int.fdiv yoe 4 - Int.fdiv yoe 100 + doy
  era * 146097 + doe - 719468

/-- Civil date of a day count since 1970-01-01
(Hinnant's civil-from-days). -/
def civilFromDays (z : Int) : Date :=
  let z := z + 719468
  let era := Int.fdiv z 146097
  let doe := z - era * 146097
  let yoe := Int.fdiv (doe - Int.fdiv doe 1460 + Int.fdiv doe 36524 - Int.fdiv doe 146096) 365
  let y := yoe + era * 400
  let doy := doe - (365 * yoe + Int.fdiv yoe 4 - Int.fdiv yoe 100)
  let mp := Int.fdiv (5 * doy + 2) 153
  let d := doy - Int.fdiv (153 * mp + 2) 5 + 1
  let m := if mp < 10 then mp + 3 else mp - 9
  ⟨if m ≤ 2 then y + 1 else y, m, d⟩

/-- `date + timedelta(days=n)`: calendar-day addition (the time component
stays at midnight). -/
def addDays (dt : Date) (n : Int) : Date :=
  civilFromDays (daysFromCivil dt.year dt.month dt.day + n)

/-- Split a character list on a separator character. -/
def splitOnChar (sep : Char) : List Char → List (List Char)
  | [] => [[]]
  | c :: cs =>
    match splitOnChar sep cs with
    | [] => [[]]
    | r :: rs => if c = sep then [] :: r :: rs else (c :: r) :: rs

/-- Decimal value of a nonempty all-digit character list, `none`
otherwise. -/
def digitsToNat? (cs : List Char) : Option Nat :=
  if cs ≠ [] ∧ cs.all fun c => c.isDigit then
    some (cs.foldl (fun n c => 10 * n + (c.toNat - 48)) 0)
  else none

/-- Python `int(s)` on a plain decimal string with an optional leading
minus sign; `none` models the raised `ValueError`. -/
def pyInt? (s : String) : Option Int :=
  match s.toList with
  | '-' :: cs => (digitsToNat? cs).map fun n => -(n : Int)
  | cs => (digitsToNat? cs).map fun n => (n : Int)

/-- `datetime.strptime(s, %Y-%m-%d)` restricted to its date part: three
dash-separated digit fields (year up to 4 digits, month/day up to 2),
validated against the calendar; `none` models the raised `ValueError`. -/
def strptimeDate (s : String) : Option Date :=
  match splitOnChar (Char.ofNat 45) s.toList with
  | [ys, ms, ds] =>
    match digitsToNat? ys, digitsToNat? ms, digitsToNat? ds with
    | some y, some m, some d =>
      if ys.length ≤ 4 ∧ ms.length ≤ 2 ∧ ds.length ≤ 2
          ∧ 1 ≤ y ∧ y ≤ 9999 ∧ 1 ≤ m ∧ m ≤ 12
          ∧ 1 ≤ d ∧ (d : Int) ≤ daysInMonth (y : Int) (m : Int) then
        some ⟨(y : Int), (m : Int), (d : Int)⟩
      else none
    | _, _, _ => none
  | _ => none

/-- Left-pad the decimal representation of a nonnegative integer with
zeros to width `w`. -/
def padInt (w : Nat) (n : Int) : String :=
  let s := toString n.toNat
  String.mk (List.replicate (w - s.length) (Char.ofNat 48)) ++ s

/-- `datetime.isoformat()` of a midnight datetime:
`YYYY-MM-DDT00:00:00`. -/
def isoformat (dt : Date) : String :=
  padInt 4 dt.year ++ "-" ++ padInt 2 dt.month ++ "-" ++ padInt 2 dt.day
    ++ "T00:00:00"

/-- `datetime.strftime(%Y-%m-%d)`: the date-only format used for the
default of the `date` query parameter. -/
def strftimeDate (dt : Date) : String :=
  padInt 4 dt.year ++ "-" ++ padInt 2 dt.month ++ "-" ++ padInt 2 dt.day

/-! ## Requests, responses, and the collaborator trace -/

/-- Query arguments of `GET /events`. -/
structure ListArgs where
  date : Option String
  days : Option String
  query : Option String
  deriving DecidableEq, Repr

/-- Query arguments of `GET /events/search`. -/
structure SearchArgs where
  query : Option String
  deriving DecidableEq, Repr

/-- The JSON body of `POST /events` and `PUT /events/{id}`: a field is
`some` exactly when the key is present in the dict. -/
structure EventData where
  title : Option String
  description : Option String
  location : Option String
  date : Option String
  time : Option String
  end_time : Option String
  deriving DecidableEq, Repr

/-- Keyword arguments of a `service.events().list(...)` call. -/
structure ListParams where
  calendarId : String
  timeMin : Option String
  timeMax : Option String
  maxResults : Nat
  singleEvents : Bool
  orderBy : Option String
  q : Option String
  deriving DecidableEq, Repr

/-- One collaborator interaction performed by a handler body:
a `get_calendar_service` invocation (credential acquisition), or one of
the five remote event-store calls. -/
inductive CalOp where
  | auth
  | list (params : ListParams)
  | get (eventId : String)
  | insert (body : EventBody)
  | update (eventId : String) (body : ProviderEvent)
  | delete (eventId : String)
  deriving DecidableEq, Repr

/-- The JSON body shapes the handlers produce with `jsonify`. -/
inductive Body where
  | errorBody (error : String)
  | healthBody
  | eventsBody (events : List FormattedEvent) (count : Nat)
  | searchBody (events : List FormattedEvent) (count : Nat) (query : String)
  | createBody (event_id : String) (event_link : Option String) (message : String)
  | updateBody (message : String) (event_link : Option String)
  | deleteBody (message : String)
  deriving DecidableEq, Repr

/-- An HTTP response: status code and JSON body.  `errorBody e` is the
`{success: false, error: e}` envelope; the other shapes all carry
`success: true` (or, for health, no `success` key). -/
structure Response where
  status : Nat
  body : Body
  deriving DecidableEq, Repr

/-- Full environment of a request: credential-store environment, the
current date, and the outcomes of the remote event-store collaborator
calls (`Except.error` models a raised exception). -/
structure Env where
  cred : CredEnv
  today : Date
  listResult : ListParams → Except String (List ProviderEvent)
  getResult : String → Except String ProviderEvent
  insertResult : EventBody → Except String CreatedRef
  updateResult : String → ProviderEvent → Except String CreatedRef
  deleteResult : String → Except String Unit

/-- Python rendering of `data.get(key)` inside an f-string: a missing key
renders as the string `None`. -/
def pyOptStr : Option String → String
  | some s => s
  | none => "None"

/-! ## Request handlers -/

/-- The keyword arguments built by `get_events` (lines 104-112). -/
def listParams (time_min time_max query : String) : ListParams :=
  { calendarId := "primary"
    timeMin := some time_min
    timeMax := some time_max
    maxResults := 50
    singleEvents := true
    orderBy := some "startTime"
    q := if query ≠ "" then some query else none }

/-- Handler of `GET /events` (lines 85-135). -/
def get_events (env : Env) (args : ListArgs) : Response × List CalOp :=
  match get_calendar_service env.cred with
  | .error e => (⟨500, .errorBody e⟩, [.auth])
  | .ok _ =>
    let date_str := args.date.getD (strftimeDate env.today)
    let daysOpt : Option Int :=
      match args.days with
      | none => some 7
      | some s => pyInt? s
    match daysOpt with
    | none =>
      (⟨500, .errorBody ("invalid literal for int() with base 10: "
        ++ sq ++ args.days.getD "" ++ sq)⟩, [.auth])
    | some days =>
      let query := args.query.getD ""
      match strptimeDate date_str with
      | none =>
        (⟨500, .errorBody ("time data " ++ sq ++ date_str ++ sq
          ++ " does not match format " ++ sq ++ "%Y-%m-%d" ++ sq)⟩, [.auth])
      | some start_date =>
        let end_date := addDays start_date days
        let time_min := isoformat start_date ++ "Z"
        let time_max := isoformat end_date ++ "Z"
        let params := listParams time_min time_max query
        match env.listResult params with
        | .error e => (⟨500, .errorBody e⟩, [.auth, .list params])
        | .ok events =>
          let formatted_events := events.map formatEvent
          (⟨200, .eventsBody formatted_events formatted_events.length⟩,
           [.auth, .list params])

/-- The event dict built by `create_event` (lines 146-162): base fields
with defaults, then a timed start/end when both `date` and `time` are
present, an all-day start/end when only `date` is. -/
def buildEvent (data : EventData) : EventBody :=
  let base : EventBody :=
    { summary := data.title.getD "New Event"
      description := data.description.getD ""
      location := data.location.getD ""
      start := none
      «end» := none }
  match data.date, data.time with
  | some d, some t =>
    { base with
      start := some ⟨some (d ++ "T" ++ t ++ ":00"), none, some "America/New_York"⟩
      «end» := some ⟨some (d ++ "T" ++ data.end_time.getD t ++ ":00"), none,
        some "America/New_York"⟩ }
  | some d, none =>
    { base with start := some ⟨none, some d, none⟩, «end» := some ⟨none, some d, none⟩ }
  | none, _ => base

/-- Handler of `POST /events` (lines 139-175). -/
def create_event (env : Env) (data : EventData) : Response × List CalOp :=
  match get_calendar_service env.cred with
  | .error e => (⟨500, .errorBody e⟩, [.auth])
  | .ok _ =>
    let event := buildEvent data
    match env.insertResult event with
    | .error e => (⟨500, .errorBody e⟩, [.auth, .insert event])
    | .ok created_event =>
      (⟨200, .createBody created_event.id created_event.htmlLink
          ("Event " ++ sq ++ pyOptStr data.title ++ sq ++ " created successfully")⟩,
       [.auth, .insert event])

/-- The field overlay of `update_event` (lines 189-201): each present
input field replaces the corresponding field of the fetched event; the
start/end objects are rebuilt only when both `date` and `time` are
present. -/
def applyUpdate (data : EventData) (event : ProviderEvent) : ProviderEvent :=
  let event := match data.title with
    | some t => { event with summary := some t }
    | none => event
  let event := match data.description with
    | some d => { event with description := some d }
    | none => event
  let event := match data.location with
    | some l => { event with location := some l }
    | none => event
  match data.date, data.time with
  | some d, some t =>
    { event with
      start := ⟨some (d ++ "T" ++ t ++ ":00"), none, some "America/New_York"⟩
      «end» := ⟨some (d ++ "T" ++ data.end_time.getD t ++ ":00"), none,
        some "America/New_York"⟩ }
  | _, _ => event

/-- Handler of `PUT /events/{event_id}` (lines 179-217). -/
def update_event (env : Env) (event_id : String) (data : EventData) :
    Response × List CalOp :=
  match get_calendar_service env.cred with
  | .error e => (⟨500, .errorBody e⟩, [.auth])
  | .ok _ =>
    match env.getResult event_id with
    | .error e => (⟨500, .errorBody e⟩, [.auth, .get event_id])
    | .ok event0 =>
      let event := applyUpdate data event0
      match env.updateResult event_id event with
      | .error e =>
        (⟨500, .errorBody e⟩, [.auth, .get event_id, .update event_id event])
      | .ok updated_event =>
        (⟨200, .updateBody "Event updated successfully" updated_event.htmlLink⟩,
         [.auth, .get event_id, .update event_id event])

/-- Handler of `DELETE /events/{event_id}` (lines 221-239): fetch the
event (for its title), then delete it. -/
def delete_event (env : Env) (event_id : String) : Response × List CalOp :=
  match get_calendar_service env.cred with
  | .error e => (⟨500, .errorBody e⟩, [.auth])
  | .ok _ =>
    match env.getResult event_id with
    | .error e => (⟨500, .errorBody e⟩, [.auth, .get event_id])
    | .ok event =>
      let event_title := event.summary.getD "Untitled Event"
      match env.deleteResult event_id with
      | .error e =>
        (⟨500, .errorBody e⟩, [.auth, .get event_id, .delete event_id])
      | .ok _ =>
        (⟨200, .deleteBody ("Event " ++ sq ++ event_title ++ sq
            ++ " deleted successfully")⟩,
         [.auth, .get event_id, .delete event_id])

/-- Handler of `GET /events/search` (lines 243-283): note that the
credential is acquired before the required-query check. -/
def search_events (env : Env) (args : SearchArgs) : Response × List CalOp :=
  match get_calendar_service env.cred with
  | .error e => (⟨500, .errorBody e⟩, [.auth])
  | .ok _ =>
    let query := args.query.getD ""
    if query = "" then
      (⟨400, .errorBody "Query parameter required"⟩, [.auth])
    else
      let params : ListParams :=
        { calendarId := "primary"
          timeMin := none
          timeMax := none
          maxResults := 25
          singleEvents := true
          orderBy := some "startTime"
          q := some query }
      match env.listResult params with
      | .error e => (⟨500, .errorBody e⟩, [.auth, .list params])
      | .ok events =>
        let formatted_events := events.map formatEvent
        (⟨200, .searchBody formatted_events formatted_events.length query⟩,
         [.auth, .list params])

/-- Handler of `GET /health` (lines 285-288): no auth, no collaborator. -/
def health_check : Response × List CalOp :=
  (⟨200, .healthBody⟩, [])

/-! ## API-key gate and dispatch -/

/-- The `require_api_key` decorator (lines 23-31): a missing or mismatched
`X-API-Key` header short-circuits to 401 without running the handler. -/
def require_api_key (API_KEY : String) (api_key : Option String)
    (f : Unit → Response × List CalOp) : Response × List CalOp :=
  if api_key ≠ some API_KEY then
    (⟨401, .errorBody "Invalid or missing API key"⟩, [])
  else f ()

/-- The routing surface of the application. -/
inductive Route where
  | getEvents (args : ListArgs)
  | createEvent (data : EventData)
  | updateEvent (event_id : String) (data : EventData)
  | deleteEvent (event_id : String)
  | searchEvents (args : SearchArgs)
  | health
  deriving DecidableEq, Repr

/-- Route dispatch: every route except `GET /health` is wrapped in
`require_api_key`. -/
def app_dispatch (env : Env) (API_KEY : String) (api_key : Option String) :
    Route → Response × List CalOp
  | .getEvents args => require_api_key API_KEY api_key fun _ => get_events env args
  | .createEvent data => require_api_key API_KEY api_key fun _ => create_event env data
  | .updateEvent i d => require_api_key API_KEY api_key fun _ => update_event env i d
  | .deleteEvent i => require_api_key API_KEY api_key fun _ => delete_event env i
  | .searchEvents a => require_api_key API_KEY api_key fun _ => search_events env a
  | .health => health_check

/-! ## Concrete fixtures for instantiating the theorems -/

/-- A valid, unexpired credential with a refresh token. -/
def okCreds : Creds := ⟨true, false, true⟩

/-- An expired credential holding a refresh token. -/
def expiredCreds : Creds := ⟨false, true, true⟩

/-- The credential produced by a successful refresh. -/
def refreshedCreds : Creds := ⟨true, false, true⟩

/-- A credential environment in which the inline token parses to a valid
credential. -/
def credEnvOk : CredEnv :=
  { GOOGLE_TOKEN := some "tok"
    GOOGLE_CREDENTIALS := none
    parseToken := fun _ => some okCreds
    tokenPickle := none
    credentialsJsonExists := false
    refreshResult := fun c => .ok c
    runLocalServerResult := .error "no interactive environment" }

/-- A credential environment with no credential source at all. -/
def credEnvFail : CredEnv :=
  { GOOGLE_TOKEN := none
    GOOGLE_CREDENTIALS := none
    parseToken := fun _ => none
    tokenPickle := none
    credentialsJsonExists := false
    refreshResult := fun c => .ok c
    runLocalServerResult := .error "no interactive environment" }

/-- A credential environment where the inline token is present but fails
to parse, while a valid credential sits in the local token file. -/
def credEnvParseFail : CredEnv :=
  { GOOGLE_TOKEN := some "garbage"
    GOOGLE_CREDENTIALS := none
    parseToken := fun _ => none
    tokenPickle := some okCreds
    credentialsJsonExists := false
    refreshResult := fun c => .ok c
    runLocalServerResult := .error "no interactive environment" }

/-- A credential environment where the local token file holds an expired
credential whose refresh succeeds. -/
def credEnvRefresh : CredEnv :=
  { GOOGLE_TOKEN := none
    GOOGLE_CREDENTIALS := none
    parseToken := fun _ => none
    tokenPickle := some expiredCreds
    credentialsJsonExists := false
    refreshResult := fun _ => .ok refreshedCreds
    runLocalServerResult := .error "no interactive environment" }

/-- A credential environment with no stored credential but a local
client-secret file and a working interactive flow. -/
def credEnvInteractive : CredEnv :=
  { GOOGLE_TOKEN := none
    GOOGLE_CREDENTIALS := none
    parseToken := fun _ => none
    tokenPickle := none
    credentialsJsonExists := true
    refreshResult := fun c => .ok c
    runLocalServerResult := .ok okCreds }

/-- A provider-native event with all fields populated. -/
def sampleEvent : ProviderEvent :=
  { id := "e1"
    summary := some "Standup"
    description := some "daily sync"
    location := some "Room 1"
    start := ⟨some "2025-01-10T09:00:00-05:00", none, some "America/New_York"⟩
    «end» := ⟨some "2025-01-10T09:30:00-05:00", none, some "America/New_York"⟩
    htmlLink := some "https://calendar/e1" }

/-- A provider-native all-day event without a summary. -/
def untitledEvent : ProviderEvent :=
  { id := "e2"
    summary := none
    description := none
    location := none
    start := ⟨none, some "2025-01-10", none⟩
    «end» := ⟨none, some "2025-01-11", none⟩
    htmlLink := none }

/-- A request environment where every collaborator call succeeds. -/
def baseEnv : Env :=
  { cred := credEnvOk
    today := ⟨2025, 1, 10⟩
    listResult := fun _ => .ok [sampleEvent]
    getResult := fun _ => .ok sampleEvent
    insertResult := fun _ => .ok ⟨"id1", some "link1"⟩
    updateResult := fun _ _ => .ok ⟨"id1", some "link1"⟩
    deleteResult := fun _ => .ok () }

/-- `baseEnv` with a failing credential store. -/
def envCredFail : Env := { baseEnv with cred := credEnvFail }

/-- `baseEnv` where the event-store get call raises (id not found). -/
def envGetFail : Env :=
  { baseEnv with getResult := fun _ => .error "Not Found" }

/-- `baseEnv` where the fetched event has no summary. -/
def envGetUntitled : Env :=
  { baseEnv with getResult := fun _ => .ok untitledEvent }

/-! ## Claims -/

/-- C1: for every route other than GET /health, if the X-API-Key header
is absent or differs from the configured key, the response is HTTP 401
with body success false and error "Invalid or missing API key", and the
handler body never runs: the trace of credential-store and remote
collaborator calls is empty. -/
theorem api_key_gate_401 (env : Env) (API_KEY : String) (api_key : Option String)
    (r : Route) (hr : r ≠ Route.health) (hk : api_key ≠ some API_KEY) :
    app_dispatch env API_KEY api_key r =
      (⟨401, .errorBody "Invalid or missing API key"⟩, []) := by
  cases r with
  | health => exact absurd rfl hr
  | getEvents args => simp only [app_dispatch, require_api_key, if_pos hk]
  | createEvent data => simp only [app_dispatch, require_api_key, if_pos hk]
  | updateEvent i d => simp only [app_dispatch, require_api_key, if_pos hk]
  | deleteEvent i => simp only [app_dispatch, require_api_key, if_pos hk]
  | searchEvents a => simp only [app_dispatch, require_api_key, if_pos hk]

/-- Witness for C1: a concrete unauthenticated search request is rejected
with 401 and an empty collaborator trace. -/
theorem api_key_gate_401_witness :
    Route.searchEvents ⟨none⟩ ≠ Route.health ∧
    (none : Option String) ≠ some "secret" ∧
    app_dispatch baseEnv "secret" none (Route.searchEvents ⟨none⟩) =
      (⟨401, .errorBody "Invalid or missing API key"⟩, []) :=
  ⟨by decide, by decide,
    api_key_gate_401 baseEnv "secret" none (Route.searchEvents ⟨none⟩)
      (by decide) (by decide)⟩

/-- Counterexample to C2: a GET /events/search request with a valid API
key and a missing query parameter nevertheless returns HTTP 500 (not
400) when credential acquisition fails, because `search_events` calls
`get_calendar_service` before validating the query. -/
theorem search_empty_query_cex :
    (app_dispatch envCredFail "secret" (some "secret")
      (Route.searchEvents ⟨none⟩)).1.status = 500 := by rfl

/-- C2 (amended): for every request to GET /events/search with a valid
API key whose query parameter is missing or empty, provided credential
acquisition succeeds, the response is HTTP 400 with the
success-false/error envelope, regardless of all other parameters and of
the remote event-store collaborator (no list call is made). -/
theorem search_empty_query_400 (env : Env) (key : String) (args : SearchArgs)
    (a : AuthResult) (hcred : get_calendar_service env.cred = .ok a)
    (hq : args.query = none ∨ args.query = some "") :
    app_dispatch env key (some key) (Route.searchEvents args) =
      (⟨400, .errorBody "Query parameter required"⟩, [CalOp.auth]) := by
  have hkey : ¬ (some key ≠ some key) := by simp
  simp only [app_dispatch, require_api_key, if_neg hkey]
  rcases hq with h | h <;>
    simp only [search_events, hcred, h, Option.getD, ite_true, if_pos rfl]

/-- Witness for C2 (amended): with a healthy credential store, a search
with no query returns 400. -/
theorem search_empty_query_400_witness :
    get_calendar_service baseEnv.cred = .ok ⟨okCreds, none⟩ ∧
    app_dispatch baseEnv "secret" (some "secret") (Route.searchEvents ⟨none⟩) =
      (⟨400, .errorBody "Query parameter required"⟩, [CalOp.auth]) :=
  ⟨rfl, search_empty_query_400 baseEnv "secret" ⟨none⟩ ⟨okCreds, none⟩ rfl (Or.inl rfl)⟩

/-- C3: `delete_event` fetches the event before deleting it.  If the
fetch raises, the response is HTTP 500 with the success-false/error
envelope and the collaborator delete call is never made (so the remote
store is unchanged); if the fetch succeeds, the trace is exactly the
fetch followed by the delete. -/
theorem delete_fetch_first (env : Env) (event_id : String) (a : AuthResult)
    (hcred : get_calendar_service env.cred = .ok a) :
    (∀ e, env.getResult event_id = .error e →
      delete_event env event_id =
        (⟨500, .errorBody e⟩, [.auth, .get event_id])) ∧
    (∀ ev, env.getResult event_id = .ok ev →
      (delete_event env event_id).2 =
        [.auth, .get event_id, .delete event_id]) := by
  constructor
  · intro e he
    simp only [delete_event, hcred, he]
  · intro ev hev
    simp only [delete_event, hcred, hev]
    cases env.deleteResult event_id <;> simp

/-- Witness for C3: deleting a nonexistent id returns 500 with the
collaborator error and performs no delete call. -/
theorem delete_fetch_first_witness :
    get_calendar_service envGetFail.cred = .ok ⟨okCreds, none⟩ ∧
    envGetFail.getResult "missing" = .error "Not Found" ∧
    delete_event envGetFail "missing" =
      (⟨500, .errorBody "Not Found"⟩, [.auth, .get "missing"]) :=
  ⟨rfl, rfl,
    (delete_fetch_first envGetFail "missing" ⟨okCreds, none⟩ rfl).1 "Not Found" rfl⟩

/-- C4: `update_event` overlays only the fields present in the request
body onto the fetched provider-native event: every omitted field is
untouched, the start/end reconstruction happens only when both `date`
and `time` are supplied, a location-only body changes exactly the
location, and the event sent to the collaborator update call is exactly
this overlay. -/
theorem update_partial_fields (env : Env) (event_id : String) (data : EventData)
    (ev : ProviderEvent) (loc : String) (a : AuthResult)
    (hcred : get_calendar_service env.cred = .ok a)
    (hget : env.getResult event_id = .ok ev) :
    ((data.title = none → (applyUpdate data ev).summary = ev.summary) ∧
     (data.description = none →
       (applyUpdate data ev).description = ev.description) ∧
     (data.location = none → (applyUpdate data ev).location = ev.location) ∧
     ((data.date = none ∨ data.time = none) →
       (applyUpdate data ev).start = ev.start ∧
       (applyUpdate data ev).«end» = ev.«end»)) ∧
    applyUpdate ⟨none, none, some loc, none, none, none⟩ ev =
      { ev with location := some loc } ∧
    (update_event env event_id data).2 =
      [.auth, .get event_id, .update event_id (applyUpdate data ev)] := by
  refine ⟨?_, ?_, ?_⟩
  · obtain ⟨title, description, location, date, time, end_time⟩ := data
    cases title <;> cases description <;> cases location <;>
      cases date <;> cases time <;> simp [applyUpdate]
  · simp [applyUpdate]
  · simp only [update_event, hcred, hget]
    cases env.updateResult event_id (applyUpdate data ev) <;> simp

/-- Witness for C4: updating a concrete event with a location-only body
leaves title, description, start and end unchanged and replaces only the
location, and that exact event is what the collaborator update receives. -/
theorem update_partial_fields_witness :
    get_calendar_service baseEnv.cred = .ok ⟨okCreds, none⟩ ∧
    baseEnv.getResult "e1" = .ok sampleEvent ∧
    applyUpdate ⟨none, none, some "Room 2", none, none, none⟩ sampleEvent =
      { sampleEvent with location := some "Room 2" } ∧
    (update_event baseEnv "e1" ⟨none, none, some "Room 2", none, none, none⟩).2 =
      [.auth, .get "e1", .update "e1" { sampleEvent with location := some "Room 2" }] := by
  have h := update_partial_fields baseEnv "e1"
    ⟨none, none, some "Room 2", none, none, none⟩ sampleEvent "Room 2"
    ⟨okCreds, none⟩ rfl rfl
  exact ⟨rfl, rfl, h.2.1, h.2.1 ▸ h.2.2⟩

/-- C5: `create_event` with both `date` and `time` builds a timed event
whose start dateTime is date T time :00 in fixed timezone
America/New_York and whose end uses `end_time` when given, else equals
the start; with `date` only it builds an all-day event whose start and
end date both equal the given date; the built event is exactly what the
collaborator insert receives; concretely, date 2025-01-10 and time 09:00
without end_time give start = end = 2025-01-10T09:00:00. -/
theorem create_datetime_rule (env : Env) (data : EventData) (d t : String)
    (a : AuthResult) (hcred : get_calendar_service env.cred = .ok a) :
    (data.date = some d → data.time = some t →
      (buildEvent data).start =
        some ⟨some (d ++ "T" ++ t ++ ":00"), none, some "America/New_York"⟩ ∧
      (buildEvent data).«end» =
        some ⟨some (d ++ "T" ++ data.end_time.getD t ++ ":00"), none,
          some "America/New_York"⟩) ∧
    (data.date = some d → data.time = none →
      (buildEvent data).start = some ⟨none, some d, none⟩ ∧
      (buildEvent data).«end» = some ⟨none, some d, none⟩) ∧
    buildEvent ⟨none, none, none, some "2025-01-10", some "09:00", none⟩ =
      { summary := "New Event", description := "", location := ""
        start := some ⟨some "2025-01-10T09:00:00", none, some "America/New_York"⟩
        «end» := some ⟨some "2025-01-10T09:00:00", none, some "America/New_York"⟩ } ∧
    (create_event env data).2 = [.auth, .insert (buildEvent data)] := by
  refine ⟨?_, ?_, by decide, ?_⟩
  · intro hd ht
    obtain ⟨title, description, location, date, time, end_time⟩ := data
    cases hd; cases ht
    simp [buildEvent]
  · intro hd ht
    obtain ⟨title, description, location, date, time, end_time⟩ := data
    cases hd; cases ht
    simp [buildEvent]
  · simp only [create_event, hcred]
    cases env.insertResult (buildEvent data) <;> simp

/-- Witness for C5: the concrete creation of a timed event on 2025-01-10
at 09:00 with no end_time inserts start = end = 2025-01-10T09:00:00 in
America/New_York. -/
theorem create_datetime_rule_witness :
    get_calendar_service baseEnv.cred = .ok ⟨okCreds, none⟩ ∧
    (buildEvent ⟨some "Meeting", none, none, some "2025-01-10", some "09:00", none⟩).start =
      some ⟨some "2025-01-10T09:00:00", none, some "America/New_York"⟩ ∧
    (buildEvent ⟨some "Meeting", none, none, some "2025-01-10", some "09:00", none⟩).«end» =
      some ⟨some "2025-01-10T09:00:00", none, some "America/New_York"⟩ ∧
    (create_event baseEnv
        ⟨some "Meeting", none, none, some "2025-01-10", some "09:00", none⟩).2 =
      [.auth, .insert (buildEvent
        ⟨some "Meeting", none, none, some "2025-01-10", some "09:00", none⟩)] := by
  have h := create_datetime_rule baseEnv
    ⟨some "Meeting", none, none, some "2025-01-10", some "09:00", none⟩
    "2025-01-10" "09:00" ⟨okCreds, none⟩ rfl
  exact ⟨rfl, (h.1 rfl rfl).1, (h.1 rfl rfl).2, h.2.2.2⟩

/-- C6: when the effective date string (the `date` argument, defaulting
to the current date) parses and the `days` argument parses (defaulting
to 7), `get_events` makes exactly one list call whose window lower bound
is the given date at midnight and whose upper bound is exactly date +
days at midnight (a half-open window under the collaborator's exclusive
timeMax contract), with the query passed as a free-text filter only when
non-empty, single-occurrence expansion, start-time ordering, and a
50-result cap. -/
theorem list_window_params (env : Env) (args : ListArgs) (start_date : Date)
    (days : Int) (a : AuthResult)
    (hcred : get_calendar_service env.cred = .ok a)
    (hdate : strptimeDate (args.date.getD (strftimeDate env.today)) = some start_date)
    (hdays : (match args.days with
              | none => some (7 : Int)
              | some s => pyInt? s) = some days) :
    (get_events env args).2 =
      [.auth, .list
        { calendarId := "primary"
          timeMin := some (isoformat start_date ++ "Z")
          timeMax := some (isoformat (addDays start_date days) ++ "Z")
          maxResults := 50
          singleEvents := true
          orderBy := some "startTime"
          q := if args.query.getD "" ≠ "" then some (args.query.getD "")
               else none }] := by
  simp only [get_events, hcred, hdays, hdate]
  cases hl : env.listResult (listParams (isoformat start_date ++ "Z")
      (isoformat (addDays start_date days) ++ "Z") (args.query.getD "")) <;>
    simp [hl, listParams]

/-- Witness for C6: listing from 2025-01-10 for 3 days with query
"meeting" requests the window [2025-01-10T00:00:00Z, 2025-01-13T00:00:00Z)
with the filter, cap 50, expansion and ordering. -/
theorem list_window_params_witness :
    strptimeDate "2025-01-10" = some ⟨2025, 1, 10⟩ ∧
    addDays ⟨2025, 1, 10⟩ 3 = ⟨2025, 1, 13⟩ ∧
    (get_events baseEnv ⟨some "2025-01-10", some "3", some "meeting"⟩).2 =
      [.auth, .list
        { calendarId := "primary"
          timeMin := some "2025-01-10T00:00:00Z"
          timeMax := some "2025-01-13T00:00:00Z"
          maxResults := 50
          singleEvents := true
          orderBy := some "startTime"
          q := some "meeting" }] := by
  refine ⟨by decide, by decide, ?_⟩
  have h := list_window_params baseEnv ⟨some "2025-01-10", some "3", some "meeting"⟩
    ⟨2025, 1, 10⟩ 3 ⟨okCreds, none⟩ rfl (by decide) (by decide)
  exact h

/-- C7: the simplified event produced from any provider-native event has
the provider id, the provider summary as title (default "No title" when
the summary is absent), and start/end equal to the provider dateTime
string when present, else the date string; and in every successful list
or search response the returned events are exactly the provider events
mapped this way (hence each has a non-null id and title, both being
total string fields). -/
theorem format_event_mapping (ev : ProviderEvent) (s t : String) :
    (formatEvent ev).id = ev.id ∧
    (ev.summary = none → (formatEvent ev).title = "No title") ∧
    (ev.summary = some t → (formatEvent ev).title = t) ∧
    (ev.start.dateTime = some s → (formatEvent ev).start = some s) ∧
    (ev.start.dateTime = none → (formatEvent ev).start = ev.start.date) ∧
    (ev.«end».dateTime = some s → (formatEvent ev).«end» = some s) ∧
    (ev.«end».dateTime = none → (formatEvent ev).«end» = ev.«end».date) ∧
    (∀ env args l n, (get_events env args).1.body = .eventsBody l n →
      ∃ evs : List ProviderEvent, l = evs.map formatEvent) ∧
    (∀ env args l n q, (search_events env args).1.body = .searchBody l n q →
      ∃ evs : List ProviderEvent, l = evs.map formatEvent) := by
  refine ⟨rfl, ?_, ?_, ?_, ?_, ?_, ?_, ?_, ?_⟩
  · intro h; simp [formatEvent, h]
  · intro h; simp [formatEvent, h]
  · intro h; simp [formatEvent, h, Option.orElse]
  · intro h; simp [formatEvent, h, Option.orElse]
  · intro h; simp [formatEvent, h, Option.orElse]
  · intro h; simp [formatEvent, h, Option.orElse]
  · intro env args l n h
    simp only [get_events] at h
    cases hc : get_calendar_service env.cred <;> simp only [hc] at h
    case error e => simp at h
    case ok a =>
    cases hdays : args.days <;> simp only [hdays] at h
    case some s =>
      cases hn : pyInt? s <;> simp only [hn] at h
      case none => simp at h
      case some days =>
      cases hp : strptimeDate (args.date.getD (strftimeDate env.today)) <;>
        simp only [hp] at h
      case none => simp at h
      case some start_date =>
      cases hl : env.listResult (listParams (isoformat start_date ++ "Z")
          (isoformat (addDays start_date days) ++ "Z") (args.query.getD "")) <;>
        simp only [hl] at h
      case error e => simp at h
      case ok evs =>
        simp only [Body.eventsBody.injEq] at h
        exact ⟨evs, h.1.symm⟩
    case none =>
      cases hp : strptimeDate (args.date.getD (strftimeDate env.today)) <;>
        simp only [hp] at h
      case none => simp at h
      case some start_date =>
      cases hl : env.listResult (listParams (isoformat start_date ++ "Z")
          (isoformat (addDays start_date 7) ++ "Z") (args.query.getD "")) <;>
        simp only [hl] at h
      case error e => simp at h
      case ok evs =>
        simp only [Body.eventsBody.injEq] at h
        exact ⟨evs, h.1.symm⟩
  · intro env args l n q h
    simp only [search_events] at h
    cases hc : get_calendar_service env.cred <;> simp only [hc] at h
    case error e => simp at h
    case ok a =>
    by_cases hq : args.query.getD "" = ""
    · simp only [hq, if_pos rfl] at h
      simp at h
    · rw [if_neg hq] at h
      cases hl : env.listResult
          { calendarId := "primary", timeMin := none, timeMax := none,
            maxResults := 25, singleEvents := true,
            orderBy := some "startTime", q := some (args.query.getD "") } <;>
        simp only [hl] at h
      · simp at h
      · next evs =>
        simp only [Body.searchBody.injEq] at h
        exact ⟨evs, h.1.symm⟩

/-- Witness for C7: a concrete all-day event with no summary maps to
title "No title" and date-string start/end; a concrete timed event keeps
its dateTime strings. -/
theorem format_event_mapping_witness :
    untitledEvent.summary = none ∧
    (formatEvent untitledEvent).title = "No title" ∧
    (formatEvent untitledEvent).start = some "2025-01-10" ∧
    sampleEvent.start.dateTime = some "2025-01-10T09:00:00-05:00" ∧
    (formatEvent sampleEvent).start = some "2025-01-10T09:00:00-05:00" := by
  have h1 := format_event_mapping untitledEvent "" ""
  have h2 := format_event_mapping sampleEvent "2025-01-10T09:00:00-05:00" ""
  refine ⟨rfl, h1.2.1 rfl, ?_, rfl, h2.2.2.2.1 rfl⟩
  have h3 := h1.2.2.2.2.1 rfl
  rw [h3]; rfl

/-- Counterexample to C8: with an inline token that fails to parse and a
local token file holding a valid credential, `get_calendar_service`
raises "No credentials found" instead of loading the file — the `elif`
on the inline value means a parse failure does not fall through to the
token file. -/
theorem token_parse_fallback_cex :
    credEnvParseFail.GOOGLE_TOKEN = some "garbage" ∧
    credEnvParseFail.parseToken "garbage" = none ∧
    credEnvParseFail.tokenPickle = some okCreds ∧
    okCreds.valid = true ∧
    get_calendar_service credEnvParseFail =
      .error "No credentials found. Set GOOGLE_CREDENTIALS environment variable or provide credentials.json" :=
  ⟨rfl, rfl, rfl, rfl, rfl⟩

/-- C8 (amended): when the inline token configuration value is present
(and non-empty) but fails to parse, the failure is logged and the
credential simply remains unset — the local token file is NOT consulted,
whatever it contains; the file is consulted exactly when the inline
value is absent or empty. -/
theorem token_parse_no_fallback (env : CredEnv) (tok : String) :
    (env.GOOGLE_TOKEN = some tok → tok ≠ "" → env.parseToken tok = none →
      loadCreds env = none) ∧
    (truthy env.GOOGLE_TOKEN = false → loadCreds env = env.tokenPickle) := by
  constructor
  · intro htok hne hparse
    simp [loadCreds, htok, hne, hparse]
  · intro ht
    cases h : env.GOOGLE_TOKEN with
    | none => simp [loadCreds, h]
    | some t =>
      rw [h] at ht
      simp [truthy] at ht
      simp [loadCreds, h, ht]

/-- Witness for C8 (amended): in the concrete parse-failure environment
the loaded credential is `none` even though the token file holds a valid
credential. -/
theorem token_parse_no_fallback_witness :
    credEnvParseFail.GOOGLE_TOKEN = some "garbage" ∧
    credEnvParseFail.parseToken "garbage" = none ∧
    credEnvParseFail.tokenPickle = some okCreds ∧
    loadCreds credEnvParseFail = none :=
  ⟨rfl, rfl, rfl,
    (token_parse_no_fallback credEnvParseFail "garbage").1 rfl (by decide) rfl⟩

/-- Helper: a successful `authFlow` implies the interactive
`credentials.json` path was taken and the newly acquired credential was
pickled. -/
theorem authFlow_saved (env : CredEnv) (a : AuthResult)
    (h : authFlow env = .ok a) :
    env.credentialsJsonExists = true ∧
    env.runLocalServerResult = .ok a.creds ∧
    a.savedToken = some a.creds := by
  unfold authFlow at h
  split at h
  · split at h
    · cases hr : env.runLocalServerResult <;> rw [hr] at h
      · simp at h
      · simp only [Except.ok.injEq] at h
        subst h
        exact ⟨by assumption, rfl, rfl⟩
    · simp at h
  · simp at h

/-- Counterexample to C9: a credential loaded from the local token file,
expired with a refresh token, is successfully refreshed, yet nothing is
written back to the file (savedToken is none) — the refreshed credential
is used for the current process only. -/
theorem refresh_no_persist_cex :
    credEnvRefresh.GOOGLE_TOKEN = none ∧
    credEnvRefresh.tokenPickle = some expiredCreds ∧
    expiredCreds.expired = true ∧
    expiredCreds.refresh_token = true ∧
    credEnvRefresh.refreshResult expiredCreds = .ok refreshedCreds ∧
    get_calendar_service credEnvRefresh = .ok ⟨refreshedCreds, none⟩ :=
  ⟨rfl, rfl, rfl, rfl, rfl, rfl⟩

/-- C9 (amended): the credential store writes the credential to the
local token file only when a brand-new credential is acquired through
the interactive flow (which requires the local client-secret file); on
the refresh path the resulting credential is never persisted.  The
model's only side effect is the file write, matching the code, which
never writes the inline configuration value (lines 55-59 are a pass). -/
theorem persist_only_interactive (env : CredEnv) (a : AuthResult)
    (h : get_calendar_service env = .ok a) :
    (a.savedToken ≠ none →
      env.credentialsJsonExists = true ∧
      env.runLocalServerResult = .ok a.creds ∧
      a.savedToken = some a.creds) ∧
    (∀ c c2, loadCreds env = some c → c.valid = false → c.expired = true →
      c.refresh_token = true → env.refreshResult c = .ok c2 →
      a = ⟨c2, none⟩) := by
  constructor
  · intro hs
    cases hl : loadCreds env with
    | none =>
      simp only [get_calendar_service, hl, afterLoad] at h
      exact authFlow_saved env a h
    | some c =>
      simp only [get_calendar_service, hl, afterLoad] at h
      split at h
      · simp only [Except.ok.injEq] at h
        rw [← h] at hs
        exact absurd rfl hs
      · split at h
        · cases hr : env.refreshResult c <;> rw [hr] at h
          · cases show Except.error _ = Except.ok a from h
          · next c2 =>
            have h2 : Except.ok (⟨c2, none⟩ : AuthResult) = Except.ok a := h
            rw [← Except.ok.inj h2] at hs
            exact absurd rfl hs
        · exact authFlow_saved env a h
  · intro c c2 hl hv he hrt hr
    simp only [get_calendar_service, hl, afterLoad] at h
    rw [if_neg (by simp [hv])] at h
    rw [if_pos (show c.expired = true ∧ c.refresh_token = true from ⟨he, hrt⟩)] at h
    rw [hr] at h
    have h2 : Except.ok (⟨c2, none⟩ : AuthResult) = Except.ok a := h
    exact (Except.ok.inj h2).symm

/-- Witness for C9 (amended): in the interactive environment the service
is built from the newly acquired credential, the client-secret file is
present, and that credential is what gets pickled. -/
theorem persist_only_interactive_witness :
    get_calendar_service credEnvInteractive = .ok ⟨okCreds, some okCreds⟩ ∧
    credEnvInteractive.credentialsJsonExists = true ∧
    credEnvInteractive.runLocalServerResult = .ok okCreds := by
  have h := (persist_only_interactive credEnvInteractive
    ⟨okCreds, some okCreds⟩ rfl).1 (by simp)
  exact ⟨rfl, h.1, h.2.1⟩

/-- C10: the fetched event in `delete_event` defaults its title to
"Untitled Event" in the success message, a different default from the
"No title" used by the list/search mapping; and a create request with no
title still succeeds, inserting an event whose summary is "New Event"
(while the f-string message renders the missing title as None). -/
theorem default_title_constants :
    untitledEvent.summary = none ∧
    delete_event envGetUntitled "e2" =
      (⟨200, .deleteBody ("Event " ++ sq ++ "Untitled Event" ++ sq
          ++ " deleted successfully")⟩,
       [.auth, .get "e2", .delete "e2"]) ∧
    (formatEvent untitledEvent).title = "No title" ∧
    ("Untitled Event" : String) ≠ "No title" ∧
    (buildEvent ⟨none, none, none, none, none, none⟩).summary = "New Event" ∧
    create_event baseEnv ⟨none, none, none, none, none, none⟩ =
      (⟨200, .createBody "id1" (some "link1")
          ("Event " ++ sq ++ "None" ++ sq ++ " created successfully")⟩,
       [.auth, .insert ⟨"New Event", "", "", none, none⟩]) :=
  ⟨rfl, rfl, rfl, by decide, rfl, rfl⟩

end CalendarApi
